import Mathlib

/-!
Verification of the tweet-my-blog bot (Python) against its specification.

The program is shallowly embedded:
* texts are `List Char`; Python string slicing, `strip` and
  `rsplit(' ', 1)[0]` are modelled explicitly;
* the SQLite database (`cache_manager.py`) is a pair of row lists; the
  `id` autoincrement and `created_at` columns are not referenced by any
  claim and are not modelled; timestamps are integers (`DATETIME` values
  compare like their underlying instants);
* randomness (slot choice, post choice) and I/O results (fetched sitemap,
  API replies, save success) are passed in as explicit parameters.
-/

namespace TweetBot

/-! ## Text processing (`tweet_generator.py`) -/

/-- Python `s[:n]` for an `Int` bound `n`: a nonnegative bound takes the
first `n` characters, a negative bound drops the last `-n`. -/
def pySliceTo (l : List Char) (n : Int) : List Char :=
  if 0 ≤ n then l.take n.toNat else l.take (l.length - (-n).toNat)

/-- Characters removed by `tweet_text.strip('"\'')`. -/
def isQuoteChar (c : Char) : Bool := c = '"' || c = '\''

/-- Python `s.strip('"\'')`: remove quote characters from both ends. -/
def stripQuotes (l : List Char) : List Char :=
  ((l.dropWhile isQuoteChar).reverse.dropWhile isQuoteChar).reverse

/-- Python `s.rsplit(' ', 1)[0]`: everything strictly before the last
space, or the whole string when it has no space. -/
def cutLastWord (l : List Char) : List Char :=
  match l.reverse.dropWhile (fun c => !(c == ' ')) with
  | [] => l
  | _ :: rest => rest.reverse

/-- `TweetGenerator._clean_tweet_text` (tweet_generator.py lines 246-267):
strip wrapping quotes; if the URL is absent, append it when it fits in 280
characters, otherwise truncate at a word boundary and append it; finally,
if the text still exceeds 280 characters, truncate again and append the
URL. -/
def clean_tweet_text (tweet_text post_url : List Char) : List Char :=
  let t := stripQuotes tweet_text
  let max_text_length : Int := 280 - (post_url.length : Int) - 1
  let t1 :=
    if post_url <:+: t then t
    else if t.length + post_url.length + 1 ≤ 280 then t ++ ' ' :: post_url
    else cutLastWord (pySliceTo t max_text_length) ++ ' ' :: post_url
  if 280 < t1.length then
    cutLastWord (pySliceTo t1 max_text_length) ++ ' ' :: post_url
  else t1

/-- Characters removed by Python `str.strip()` with no argument. -/
def isPySpace (c : Char) : Bool :=
  c = ' ' || c = '\t' || c = '\n' || c = '\r' || c = '\x0b' || c = '\x0c'

/-- Python `s.strip()`: remove whitespace from both ends. -/
def stripWs (l : List Char) : List Char :=
  ((l.dropWhile isPySpace).reverse.dropWhile isPySpace).reverse

/-- The deterministic template returned by
`TweetGenerator.generate_tweet_text` when the OpenAI call raises
(tweet_generator.py lines 137-140):
`f"Check out this post: {post_data['title']} {post_data['url']}"`. -/
def fallback_template (title url : List Char) : List Char :=
  ("Check out this post: ".data) ++ title ++ ' ' :: url

/-- `TweetGenerator.generate_tweet_text` (tweet_generator.py lines
106-140), with the OpenAI reply passed in: `some content` is a successful
API reply (then the code strips it and runs `_clean_tweet_text`), `none`
is a raised exception (then the code returns the fallback template). -/
def generate_tweet_text (apiReply : Option (List Char)) (title url : List Char) :
    List Char :=
  match apiReply with
  | some content => clean_tweet_text (stripWs content) url
  | none => fallback_template title url

/-! ## Database model (`cache_manager.py`) -/

/-- A row of the `tweeted_posts` table. -/
structure PostRow where
  post_url : String
  post_title : String
  first_tweeted_at : Int
  last_tweeted_at : Int
  tweet_count : Int
  deriving Repr, DecidableEq

/-- A row of the `tweet_history` table (stored in insertion order). -/
structure HistRow where
  post_url : String
  tweet_text : String
  tweet_id : Option String
  tweeted_at : Int
  style_params : String
  success : Bool
  error_message : Option String
  deriving Repr, DecidableEq

/-- The SQLite database of `cache_manager.py`. -/
structure DB where
  tweeted_posts : List PostRow
  tweet_history : List HistRow
  deriving Repr, DecidableEq

/-- The empty database created by `_init_database`. -/
def DB.empty : DB := ⟨[], []⟩

/-- Scalar subquery `SELECT ... FROM tweeted_posts WHERE post_url = ?`:
`post_url` is UNIQUE, so at most one row matches. -/
def findPost (db : DB) (url : String) : Option PostRow :=
  db.tweeted_posts.find? (fun r => r.post_url == url)

/-- The first `cursor.execute` of `log_tweet` (cache_manager.py lines
107-116): `INSERT OR REPLACE INTO tweeted_posts` keeping
`first_tweeted_at` via `COALESCE` of a self-select, setting
`last_tweeted_at` to `now` and `tweet_count` to the old count plus one
(`COALESCE(... + 1, 1)`). The REPLACE deletes any row with the same
(UNIQUE) `post_url` and inserts the new row. -/
def upsertPost (db : DB) (url title : String) (now : Int) : DB :=
  let newRow : PostRow :=
    { post_url := url
      post_title := title
      first_tweeted_at := (findPost db url).elim now (fun r => r.first_tweeted_at)
      last_tweeted_at := now
      tweet_count := (findPost db url).elim 1 (fun r => r.tweet_count + 1) }
  { db with
      tweeted_posts :=
        db.tweeted_posts.filter (fun r => !(r.post_url == url)) ++ [newRow] }

/-- The second `cursor.execute` of `log_tweet` (cache_manager.py lines
119-123): `INSERT INTO tweet_history`. -/
def appendHistory (db : DB) (url text : String) (tid : Option String)
    (sp : String) (succ : Bool) (err : Option String) (now : Int) : DB :=
  { db with
      tweet_history := db.tweet_history ++
        [{ post_url := url, tweet_text := text, tweet_id := tid,
           tweeted_at := now, style_params := sp, success := succ,
           error_message := err }] }

/-- `CacheManager.log_tweet` (cache_manager.py lines 97-125), committed
effect: the upsert followed by the history insert. -/
def log_tweet (db : DB) (url title text : String) (tid : Option String)
    (sp : String) (succ : Bool) (err : Option String) (now : Int) : DB :=
  appendHistory (upsertPost db url title now) url text tid sp succ err now

/-- `log_tweet` as executed inside `with sqlite3.connect(...)`: both
statements run in one implicit transaction committed by `conn.commit()`;
an exception at either statement rolls the transaction back, leaving the
committed database unchanged. `failUpsert` / `failHistory` say whether the
corresponding `cursor.execute` raises. Returns the committed database and
whether the call succeeded. -/
def log_tweet_txn (db : DB) (url title text : String) (tid : Option String)
    (sp : String) (succ : Bool) (err : Option String) (now : Int)
    (failUpsert failHistory : Bool) : DB × Bool :=
  if failUpsert then (db, false)
  else
    let pending := upsertPost db url title now
    if failHistory then (db, false)
    else (appendHistory pending url text tid sp succ err now, true)

/-- `CacheManager.get_recently_tweeted_urls` (cache_manager.py lines
61-72): `SELECT post_url FROM tweeted_posts WHERE last_tweeted_at >=
now - cooldown`. Returned as the list of fetched URLs (the Python set is
its set of members). -/
def get_recently_tweeted_urls (db : DB) (now : Int) (cooldown : Int) :
    List String :=
  (db.tweeted_posts.filter (fun r => now - cooldown ≤ r.last_tweeted_at)).map
    (fun r => r.post_url)

/-- `CacheManager.cleanup_old_data` (cache_manager.py lines 151-161):
`DELETE FROM tweet_history WHERE tweeted_at < now - days_to_keep`; returns
the new database and `cursor.rowcount`, the number of deleted rows. -/
def cleanup_old_data (db : DB) (now : Int) (days_to_keep : Int) : DB × Nat :=
  let cutoff := now - days_to_keep
  ({ db with
      tweet_history := db.tweet_history.filter (fun h => !(h.tweeted_at < cutoff)) },
   (db.tweet_history.filter (fun h => h.tweeted_at < cutoff)).length)

/-- Number of `tweet_history` rows for a URL. -/
def histCount (db : DB) (url : String) : Int :=
  ((db.tweet_history.filter (fun h => h.post_url == url)).length : Int)

/-- `tweet_count` recorded for a URL (0 when the URL has no row). -/
def postCount (db : DB) (url : String) : Int :=
  (findPost db url).elim 0 (fun r => r.tweet_count)

/-- Invariant: `tweet_count` of each URL equals its number of history
rows. -/
def countInv (db : DB) : Prop :=
  ∀ url : String, postCount db url = histCount db url

/-! ## Sitemap and run model (`sitemap_parser.py`, `main.py`) -/

/-- A post parsed from the sitemap (`SitemapParser._extract_post_data`);
only the fields the claims mention are modelled. -/
structure Post where
  url : String
  title : String
  deriving Repr, DecidableEq

/-- `SitemapParser.get_eligible_posts` (sitemap_parser.py lines 142-152),
with the fetched posts passed in: keep the posts whose URL is not in the
excluded set (the set is modelled by list membership). -/
def get_eligible_posts (all_posts : List Post) (excluded_urls : List String) :
    List Post :=
  all_posts.filter (fun post => !(excluded_urls.contains post.url))

/-- How the candidate-selection phase of `TweetBot.run` (main.py lines
65-81) ends: with a pool to draw from, or with one of its two distinct
error logs followed by `return False`. -/
inductive SelectOutcome where
  /-- A non-empty pool was found; the run proceeds with it. -/
  | proceed (pool : List Post)
  /-- `logger.error("No posts found in sitemap"); return False`. -/
  | noPostsInSitemap
  /-- `logger.error("No eligible posts found"); return False`. -/
  | noEligiblePosts
  deriving Repr, DecidableEq

/-- `TweetBot.run` lines 65-81: compute the eligible posts from the
fetched sitemap; when they are empty and some URLs are on cooldown,
re-fetch the sitemap (`refetched`) and allow re-tweets from all of it;
abort with the sitemap error when the re-fetch is empty, and with the
no-eligible-posts error when nothing was on cooldown. -/
def run_select (fetched refetched : List Post) (recently_tweeted : List String) :
    SelectOutcome :=
  let eligible := get_eligible_posts fetched recently_tweeted
  if eligible.isEmpty then
    if !recently_tweeted.isEmpty then
      if !refetched.isEmpty then .proceed refetched
      else .noPostsInSitemap
    else .noEligiblePosts
  else .proceed eligible

/-- The rest of `TweetBot.run` (main.py lines 113-153) reduced to its
observable effects: given the selection outcome, the generated tweet text
and whether `post_tweet` returned an id, return `(run return value,
number of log_tweet calls)`. On an abort outcome the run returns `False`
and writes nothing; on `proceed`, an empty tweet text returns `False`
before any write (line 118-120), and otherwise `log_tweet` is called
exactly once (line 133) whether posting succeeded or not. -/
def run_result (outcome : SelectOutcome) (tweet_text : List Char)
    (posted : Bool) : Bool × Nat :=
  match outcome with
  | .proceed _ => if tweet_text.isEmpty then (false, 0) else (posted, 1)
  | _ => (false, 0)

/-- `main()` exit status (main.py line 214): `sys.exit(0 if success else 1)`. -/
def exit_status (success : Bool) : Nat := if success then 0 else 1

/-! ## Daily scheduler (`daily_scheduler.py`) -/

/-- The schedule dict persisted in `daily_schedule.json`. -/
structure Schedule where
  date : String
  hour : Nat
  minute : Nat
  created_at : String
  deriving Repr, DecidableEq

/-- The fixed slot table of `_create_todays_schedule`
(daily_scheduler.py lines 76-88). -/
def time_slots : List (Nat × Nat) :=
  [(13, 12), (14, 23), (15, 8), (16, 37), (17, 19), (18, 26),
   (19, 43), (20, 17), (21, 33), (22, 11), (23, 29)]

/-- `DailyScheduler._create_todays_schedule` (daily_scheduler.py lines
71-98), with `random.choice` passed in as an index into `time_slots`. -/
def create_todays_schedule (today : String) (choice : Fin 11)
    (createdAt : String) : Schedule :=
  let slot := time_slots.get (Fin.cast (by decide) choice)
  { date := today, hour := slot.1, minute := slot.2, created_at := createdAt }

/-- The persisted schedule file: `none` models a missing, unreadable or
unparsable `daily_schedule.json` (the `except` of lines 63-64), `some s`
a file that parses to `s`. -/
abbrev ScheduleFile := Option Schedule

/-- `DailyScheduler._get_or_create_schedule` (daily_scheduler.py lines
51-69) together with `_save_schedule` (lines 100-106): return the
persisted schedule when its `date` is today, otherwise create a fresh one
and save it. `_save_schedule` swallows write errors, so a failed save
(`saveOk = false`) leaves the file as it was. Returns the schedule and
the file state after the call. -/
def get_or_create_schedule (file : ScheduleFile) (today : String)
    (choice : Fin 11) (createdAt : String) (saveOk : Bool) :
    Schedule × ScheduleFile :=
  match file with
  | some data =>
    if data.date = today then (data, file)
    else
      let fresh := create_todays_schedule today choice createdAt
      (fresh, if saveOk then some fresh else file)
  | none =>
    let fresh := create_todays_schedule today choice createdAt
    (fresh, if saveOk then some fresh else file)

/-! ## Helper lemmas -/

theorem find?_filter_ne (l : List PostRow) (url url' : String) (h : url' ≠ url) :
    (l.filter (fun r => !(r.post_url == url))).find? (fun r => r.post_url == url')
      = l.find? (fun r => r.post_url == url') := by
  induction l with
  | nil => rfl
  | cons r tl ih =>
    have hup : (url == url') = false := beq_eq_false_iff_ne.mpr (fun hc => h hc.symm)
    by_cases hr : r.post_url = url
    · simp [List.filter_cons, hr, List.find?_cons, hup, ih]
    · by_cases hp : r.post_url = url'
      · simp [List.filter_cons, hr, List.find?_cons, hp, h, ih]
      · simp [List.filter_cons, hr, List.find?_cons, hp, ih]

theorem find?_filter_self (l : List PostRow) (url : String) :
    (l.filter (fun r => !(r.post_url == url))).find? (fun r => r.post_url == url)
      = none := by
  refine List.find?_eq_none.mpr ?_
  intro r hr
  have := (List.mem_filter.mp hr).2
  simp only [Bool.not_eq_true', beq_eq_false_iff_ne, ne_eq] at this
  simp [this]

theorem findPost_appendHistory (db : DB) (url text : String) (tid : Option String)
    (sp : String) (succ : Bool) (err : Option String) (now : Int) (u : String) :
    findPost (appendHistory db url text tid sp succ err now) u = findPost db u := rfl

theorem findPost_upsert_self (db : DB) (url title : String) (now : Int) :
    findPost (upsertPost db url title now) url =
      some { post_url := url, post_title := title,
             first_tweeted_at := (findPost db url).elim now (fun r => r.first_tweeted_at),
             last_tweeted_at := now,
             tweet_count := (findPost db url).elim 1 (fun r => r.tweet_count + 1) } := by
  unfold findPost upsertPost
  rw [List.find?_append, find?_filter_self]
  simp [List.find?_cons, findPost]

theorem findPost_upsert_ne (db : DB) (url title : String) (now : Int)
    (u : String) (h : u ≠ url) :
    findPost (upsertPost db url title now) u = findPost db u := by
  unfold findPost upsertPost
  rw [List.find?_append, find?_filter_ne db.tweeted_posts url u h]
  have hnew : (url == u) = false := beq_eq_false_iff_ne.mpr (fun hc => h hc.symm)
  simp [List.find?_cons, hnew]

theorem histCount_appendHistory_self (db : DB) (url text : String)
    (tid : Option String) (sp : String) (succ : Bool) (err : Option String)
    (now : Int) :
    histCount (appendHistory db url text tid sp succ err now) url
      = histCount db url + 1 := by
  unfold histCount appendHistory
  simp [List.filter_append]

theorem histCount_appendHistory_ne (db : DB) (url text : String)
    (tid : Option String) (sp : String) (succ : Bool) (err : Option String)
    (now : Int) (u : String) (h : u ≠ url) :
    histCount (appendHistory db url text tid sp succ err now) u
      = histCount db u := by
  have hnew : (url == u) = false := beq_eq_false_iff_ne.mpr (fun hc => h hc.symm)
  unfold histCount appendHistory
  simp [List.filter_append, hnew]

theorem histCount_upsert (db : DB) (url title : String) (now : Int) (u : String) :
    histCount (upsertPost db url title now) u = histCount db u := rfl

/-! ## Claim C1 -/

/-- Claim C1, counterexample: a URL whose last promotion lies at exactly
the cooldown before now IS returned by `get_recently_tweeted_urls`
(`last_tweeted_at >= cutoff` includes the boundary), while the claim says
it is excluded: with `last_tweeted_at = 0`, `now = 5`, `cooldown = 5`, the
URL is in the result although `now - ts < C` fails. -/
theorem C1_boundary_counterexample :
    "u" ∈ get_recently_tweeted_urls ⟨[⟨"u", "t", 0, 0, 1⟩], []⟩ 5 5
      ∧ ¬((5 : Int) - 0 < 5) := by
  constructor
  · simp [get_recently_tweeted_urls, List.filter]
  · decide

theorem mem_recently_tweeted_iff (db : DB) (now c : Int) (url : String) :
    url ∈ get_recently_tweeted_urls db now c ↔
      ∃ r ∈ db.tweeted_posts, r.post_url = url ∧ now - r.last_tweeted_at ≤ c := by
  unfold get_recently_tweeted_urls
  simp only [List.mem_map, List.mem_filter, decide_eq_true_eq]
  constructor
  · rintro ⟨r, ⟨hr, hc⟩, rfl⟩
    exact ⟨r, hr, rfl, by omega⟩
  · rintro ⟨r, hr, rfl, hc⟩
    exact ⟨r, ⟨hr, by omega⟩, rfl⟩

/-- Claim C1 (amended): `get_recently_tweeted_urls cooldown` returns
exactly the URLs of rows whose last-promoted timestamp `ts` satisfies
`now - ts ≤ C`; the boundary at exactly `C` before now is INCLUDED. -/
theorem C1_recently_tweeted_membership (db : DB) (now c : Int) (url : String) :
    url ∈ get_recently_tweeted_urls db now c ↔
      ∃ r ∈ db.tweeted_posts, r.post_url = url ∧ now - r.last_tweeted_at ≤ c :=
  mem_recently_tweeted_iff db now c url

/-! ## Claim C2 -/

/-- Claim C2: calling `log_tweet` twice for the same (previously unseen)
URL yields `tweet_count = 2`, `first_tweeted_at` unchanged (still the
first call's time), `last_tweeted_at` updated to the second call's time,
and exactly two `tweet_history` rows for that URL. -/
theorem C2_log_tweet_twice (db : DB) (url title1 title2 text1 text2 : String)
    (tid1 tid2 : Option String) (sp1 sp2 : String) (s1 s2 : Bool)
    (e1 e2 : Option String) (now1 now2 : Int)
    (hpost : findPost db url = none) (hhist : histCount db url = 0) :
    findPost (log_tweet (log_tweet db url title1 text1 tid1 sp1 s1 e1 now1)
        url title2 text2 tid2 sp2 s2 e2 now2) url =
      some { post_url := url, post_title := title2,
             first_tweeted_at := now1, last_tweeted_at := now2, tweet_count := 2 }
    ∧ histCount (log_tweet (log_tweet db url title1 text1 tid1 sp1 s1 e1 now1)
        url title2 text2 tid2 sp2 s2 e2 now2) url = 2 := by
  have h1 : findPost (log_tweet db url title1 text1 tid1 sp1 s1 e1 now1) url =
      some { post_url := url, post_title := title1,
             first_tweeted_at := now1, last_tweeted_at := now1, tweet_count := 1 } := by
    unfold log_tweet
    rw [findPost_appendHistory, findPost_upsert_self, hpost]
    rfl
  constructor
  · unfold log_tweet
    rw [findPost_appendHistory, findPost_upsert_self]
    unfold log_tweet at h1
    rw [h1]
    rfl
  · unfold log_tweet
    rw [histCount_appendHistory_self, histCount_upsert,
        histCount_appendHistory_self, histCount_upsert, hhist]
    decide

/-- Claim C2 witness: the double-call property evaluated on the empty
database. -/
theorem C2_log_tweet_twice_witness :
    findPost DB.empty "u" = none ∧ histCount DB.empty "u" = 0 ∧
      (findPost (log_tweet (log_tweet DB.empty "u" "t1" "x1" none "{}" true none 10)
          "u" "t2" "x2" none "{}" true none 20) "u" =
        some { post_url := "u", post_title := "t2",
               first_tweeted_at := 10, last_tweeted_at := 20, tweet_count := 2 }
      ∧ histCount (log_tweet (log_tweet DB.empty "u" "t1" "x1" none "{}" true none 10)
          "u" "t2" "x2" none "{}" true none 20) "u" = 2) :=
  ⟨rfl, rfl,
    C2_log_tweet_twice DB.empty "u" "t1" "t2" "x1" "x2" none none "{}" "{}"
      true true none none 10 20 rfl rfl⟩

/-! ## Claim C3 -/

theorem countInv_log_tweet (db : DB) (url title text : String)
    (tid : Option String) (sp : String) (succ : Bool) (err : Option String)
    (now : Int) (h : countInv db) :
    countInv (log_tweet db url title text tid sp succ err now) := by
  intro u
  unfold log_tweet
  by_cases hu : u = url
  · subst hu
    unfold postCount
    rw [findPost_appendHistory, findPost_upsert_self,
        histCount_appendHistory_self, histCount_upsert]
    have hinv := h u
    unfold postCount at hinv
    cases hfind : findPost db u with
    | none => rw [hfind] at hinv; simp [← hinv]
    | some r => rw [hfind] at hinv; simp [← hinv]
  · unfold postCount
    rw [findPost_appendHistory, findPost_upsert_ne db url title now u hu,
        histCount_appendHistory_ne (upsertPost db url title now)
          url text tid sp succ err now u hu,
        histCount_upsert]
    exact h u

/-- Claim C3: the two statements of `log_tweet` run inside one SQLite
transaction, so whatever execute raises, either both writes are committed
(the full `log_tweet` effect) or the committed database is unchanged; in
both cases the per-URL equality between `tweet_count` and the number of
`tweet_history` rows is preserved. -/
theorem C3_log_tweet_atomic (db : DB) (url title text : String)
    (tid : Option String) (sp : String) (succ : Bool) (err : Option String)
    (now : Int) (failUpsert failHistory : Bool) (hinv : countInv db) :
    (log_tweet_txn db url title text tid sp succ err now failUpsert failHistory
        = (log_tweet db url title text tid sp succ err now, true)
      ∨ log_tweet_txn db url title text tid sp succ err now failUpsert failHistory
        = (db, false))
    ∧ countInv (log_tweet_txn db url title text tid sp succ err now
        failUpsert failHistory).1 := by
  unfold log_tweet_txn
  cases failUpsert with
  | true => exact ⟨Or.inr rfl, hinv⟩
  | false =>
    cases failHistory with
    | true => exact ⟨Or.inr rfl, hinv⟩
    | false =>
      exact ⟨Or.inl rfl, countInv_log_tweet db url title text tid sp succ err now hinv⟩

/-- Claim C3 witness: the atomicity statement evaluated on the empty
database with a failure at the history insert. -/
theorem C3_log_tweet_atomic_witness :
    countInv DB.empty ∧
      ((log_tweet_txn DB.empty "u" "t" "x" none "{}" true none 7 false true
          = (log_tweet DB.empty "u" "t" "x" none "{}" true none 7, true)
        ∨ log_tweet_txn DB.empty "u" "t" "x" none "{}" true none 7 false true
          = (DB.empty, false))
      ∧ countInv (log_tweet_txn DB.empty "u" "t" "x" none "{}" true none 7
          false true).1) :=
  have hinv : countInv DB.empty := fun _ => rfl
  ⟨hinv, C3_log_tweet_atomic DB.empty "u" "t" "x" none "{}" true none 7
    false true hinv⟩

/-! ## Claim C9 -/

theorem length_filter_add_length_filter_not {α : Type} (l : List α) (p : α → Bool) :
    (l.filter p).length + (l.filter (fun x => !(p x))).length = l.length := by
  induction l with
  | nil => rfl
  | cons a tl ih =>
    by_cases ha : p a
    · simp [List.filter_cons, ha, ← ih]; omega
    · simp [List.filter_cons, ha, ← ih]; omega

/-- Claim C9: `cleanup_old_data d` deletes exactly the `tweet_history`
rows strictly older than `d` days before now and returns their number;
the `tweeted_posts` table is untouched and the history can only
shrink. -/
theorem C9_cleanup_old_data (db : DB) (now d : Int) :
    (cleanup_old_data db now d).1.tweeted_posts = db.tweeted_posts
    ∧ (∀ h : HistRow, h ∈ (cleanup_old_data db now d).1.tweet_history ↔
        h ∈ db.tweet_history ∧ ¬(h.tweeted_at < now - d))
    ∧ (cleanup_old_data db now d).2 +
        (cleanup_old_data db now d).1.tweet_history.length
        = db.tweet_history.length
    ∧ (cleanup_old_data db now d).1.tweet_history.length
        ≤ db.tweet_history.length := by
  refine ⟨rfl, ?_, ?_, ?_⟩
  · intro h
    unfold cleanup_old_data
    simp [List.mem_filter]
  · exact length_filter_add_length_filter_not db.tweet_history
      (fun h => h.tweeted_at < now - d)
  · exact List.length_filter_le _ _

/-! ## Claim C10 -/

/-- Claim C10: `log_tweet` with `success = false` produces the same
`tweeted_posts` row as a successful call at the same instant (the flag
only reaches `tweet_history`): `last_tweeted_at` is bumped to `now` and
`tweet_count` incremented, and `get_recently_tweeted_urls` (which does
not look at `success`) therefore reports the URL for the full cooldown
window. -/
theorem C10_failed_attempt_cooldown (db : DB) (url title text : String)
    (tid : Option String) (sp : String) (err : Option String)
    (now now' c : Int) (h : now' - now ≤ c) :
    (log_tweet db url title text tid sp false err now).tweeted_posts
      = (log_tweet db url title text tid sp true none now).tweeted_posts
    ∧ findPost (log_tweet db url title text tid sp false err now) url =
        some { post_url := url, post_title := title,
               first_tweeted_at := (findPost db url).elim now
                 (fun r => r.first_tweeted_at),
               last_tweeted_at := now,
               tweet_count := (findPost db url).elim 1
                 (fun r => r.tweet_count + 1) }
    ∧ url ∈ get_recently_tweeted_urls
        (log_tweet db url title text tid sp false err now) now' c := by
  refine ⟨rfl, ?_, ?_⟩
  · unfold log_tweet
    rw [findPost_appendHistory, findPost_upsert_self]
  · refine (mem_recently_tweeted_iff _ now' c url).mpr ?_
    refine ⟨{ post_url := url, post_title := title,
              first_tweeted_at := (findPost db url).elim now
                (fun r => r.first_tweeted_at),
              last_tweeted_at := now,
              tweet_count := (findPost db url).elim 1
                (fun r => r.tweet_count + 1) }, ?_, rfl, by simpa using h⟩
    unfold log_tweet appendHistory upsertPost
    simp

/-- Claim C10 witness: a failed attempt logged on the empty database at
time 0 keeps the URL on cooldown at time 3 with window 5. -/
theorem C10_failed_attempt_cooldown_witness :
    (3 : Int) - 0 ≤ 5 ∧
      ((log_tweet DB.empty "u" "t" "x" none "{}" false (some "err") 0).tweeted_posts
        = (log_tweet DB.empty "u" "t" "x" none "{}" true none 0).tweeted_posts
      ∧ findPost (log_tweet DB.empty "u" "t" "x" none "{}" false (some "err") 0) "u" =
          some { post_url := "u", post_title := "t",
                 first_tweeted_at := (findPost DB.empty "u").elim 0
                   (fun r => r.first_tweeted_at),
                 last_tweeted_at := 0,
                 tweet_count := (findPost DB.empty "u").elim 1
                   (fun r => r.tweet_count + 1) }
      ∧ "u" ∈ get_recently_tweeted_urls
          (log_tweet DB.empty "u" "t" "x" none "{}" false (some "err") 0) 3 5) :=
  ⟨by decide,
    C10_failed_attempt_cooldown DB.empty "u" "t" "x" none "{}" (some "err")
      0 3 5 (by decide)⟩

/-! ## Claim C4 -/

/-- Claim C4: `get_eligible_posts` keeps exactly the candidates whose URL
is not excluded, in the input's relative order (it is a sublist of the
input), and when it is empty while the exclusion set is non-empty,
`TweetBot.run` widens the pool to all (re-fetched) candidates instead of
failing. -/
theorem C4_eligible_and_fallback (all_posts : List Post)
    (excluded : List String) :
    (∀ p : Post, p ∈ get_eligible_posts all_posts excluded ↔
        p ∈ all_posts ∧ ¬(p.url ∈ excluded))
    ∧ List.Sublist (get_eligible_posts all_posts excluded) all_posts
    ∧ (get_eligible_posts all_posts excluded = [] → excluded ≠ [] →
        all_posts ≠ [] →
        run_select all_posts all_posts excluded = .proceed all_posts) := by
  refine ⟨?_, List.filter_sublist _, ?_⟩
  · intro p
    unfold get_eligible_posts
    simp [List.mem_filter]
  · intro hempty hex hall
    unfold run_select
    rw [hempty]
    simp [List.isEmpty_iff, hex, hall]

/-- Claim C4 witness: the two-step scenario from the spec, with both
candidates excluded: `get_eligible_posts` returns `[]` and the caller
falls back to the full candidate list. -/
theorem C4_eligible_and_fallback_witness :
    get_eligible_posts [⟨"A", "a"⟩, ⟨"B", "b"⟩] ["A", "B"] = [] ∧
      run_select [⟨"A", "a"⟩, ⟨"B", "b"⟩] [⟨"A", "a"⟩, ⟨"B", "b"⟩] ["A", "B"]
        = .proceed [⟨"A", "a"⟩, ⟨"B", "b"⟩] :=
  ⟨by decide,
    (C4_eligible_and_fallback [⟨"A", "a"⟩, ⟨"B", "b"⟩] ["A", "B"]).2.2
      (by decide) (by decide) (by decide)⟩

/-! ## Claim C5 -/

/-- Claim C5, counterexample: with an empty fetch result and an empty
cooldown set, `TweetBot.run` reports `"No eligible posts found"` -- the
very outcome the claim reserves for the no-eligible-content condition --
and not the distinct `"No posts found in sitemap"` source error, so an
empty source is NOT always reported distinctly. -/
theorem C5_not_distinct_counterexample :
    run_select ([] : List Post) [] [] = .noEligiblePosts
    ∧ SelectOutcome.noEligiblePosts ≠ SelectOutcome.noPostsInSitemap := by
  exact ⟨rfl, by decide⟩

/-- Claim C5 (amended): when the source yields nothing (initial fetch and
re-fetch both empty) the run aborts -- returning `False`, hence exit
status 1 -- and performs no history write; the abort is reported as the
distinct `"No posts found in sitemap"` error exactly when the cooldown
set is non-empty, and as the generic `"No eligible posts found"` error
when it is empty. -/
theorem C5_empty_source_aborts (fetched refetched : List Post)
    (recently : List String) (tweet_text : List Char) (posted : Bool)
    (hf : fetched = []) (hr : refetched = []) :
    run_select fetched refetched recently
      = (if recently.isEmpty then SelectOutcome.noEligiblePosts
         else SelectOutcome.noPostsInSitemap)
    ∧ run_result (run_select fetched refetched recently) tweet_text posted
        = (false, 0)
    ∧ exit_status
        (run_result (run_select fetched refetched recently) tweet_text posted).1
        = 1 := by
  subst hf hr
  cases recently with
  | nil => exact ⟨rfl, rfl, rfl⟩
  | cons a tl => exact ⟨rfl, rfl, rfl⟩

/-- Claim C5 witness: the simulated network failure with a non-empty
cooldown set aborts with the sitemap error, no write, exit 1. -/
theorem C5_empty_source_aborts_witness :
    run_select ([] : List Post) [] ["A"]
      = (if (["A"] : List String).isEmpty then SelectOutcome.noEligiblePosts
         else SelectOutcome.noPostsInSitemap)
    ∧ run_result (run_select ([] : List Post) [] ["A"]) "text".data true
        = (false, 0)
    ∧ exit_status
        (run_result (run_select ([] : List Post) [] ["A"]) "text".data true).1
        = 1 :=
  C5_empty_source_aborts [] [] ["A"] "text".data true rfl rfl

/-! ## Claim C6 -/

theorem get_or_create_schedule_persists (file : ScheduleFile) (today : String)
    (choice : Fin 11) (createdAt : String) :
    (get_or_create_schedule file today choice createdAt true).2
      = some (get_or_create_schedule file today choice createdAt true).1
    ∧ (get_or_create_schedule file today choice createdAt true).1.date = today := by
  unfold get_or_create_schedule
  cases file with
  | none => exact ⟨rfl, rfl⟩
  | some data =>
    by_cases hd : data.date = today
    · simp [hd]
    · simp [hd, create_todays_schedule]

/-- Claim C6: once a slot has been chosen and persisted for a date, a
later call on the same date -- with any other random choice, creation
time or save behaviour, and with no state besides the persisted file, so
also across a process restart -- returns the identical schedule and
leaves the file unchanged. -/
theorem C6_schedule_idempotent (file : ScheduleFile) (today : String)
    (choice1 choice2 : Fin 11) (created1 created2 : String) (saveOk2 : Bool) :
    get_or_create_schedule
        (get_or_create_schedule file today choice1 created1 true).2
        today choice2 created2 saveOk2
      = ((get_or_create_schedule file today choice1 created1 true).1,
         (get_or_create_schedule file today choice1 created1 true).2) := by
  obtain ⟨hfile, hdate⟩ :=
    get_or_create_schedule_persists file today choice1 created1
  generalize hc : get_or_create_schedule file today choice1 created1 true = res
    at hfile hdate ⊢
  obtain ⟨s1, f1⟩ := res
  simp only at hfile hdate ⊢
  rw [hfile]
  unfold get_or_create_schedule
  simp [hdate, hfile]

/-! ## Claim C8 -/

/-- Claim C8, counterexample: when the OpenAI call raises,
`generate_tweet_text` returns the deterministic template
`"Check out this post: {title} {url}"`; the text is non-empty, so
`TweetBot.run` does NOT abort at the drafting check and still performs
its one history write -- contradicting "the run aborts ... no fallback
to a minimal deterministic template happens in this variant". -/
theorem C8_fallback_counterexample :
    generate_tweet_text none "My Post".data "https://x.y/p".data
      = "Check out this post: My Post https://x.y/p".data
    ∧ (generate_tweet_text none "My Post".data "https://x.y/p".data).isEmpty
      = false
    ∧ run_result (.proceed [⟨"https://x.y/p", "My Post"⟩])
        (generate_tweet_text none "My Post".data "https://x.y/p".data) true
      = (true, 1) := by
  refine ⟨by decide, by decide, by decide⟩

/-- Claim C8 (amended): when the generative step raises, the run does not
abort: `generate_tweet_text` returns the deterministic fallback template
`"Check out this post: {title} {url}"`, which is never empty, so the
drafting check at main.py line 118 passes and the single history write
still occurs; the drafting step aborts the run only on an empty text. -/
theorem C8_drafting_failure_fallback (title url : List Char)
    (pool : List Post) (posted : Bool) :
    generate_tweet_text none title url = fallback_template title url
    ∧ (generate_tweet_text none title url).isEmpty = false
    ∧ run_result (.proceed pool) (generate_tweet_text none title url) posted
        = (posted, 1) := by
  refine ⟨rfl, rfl, ?_⟩
  unfold run_result
  have : (generate_tweet_text none title url).isEmpty = false := rfl
  rw [this]
  simp

/-! ## Claim C7 -/

theorem dropWhile_head_not {α : Type} (p : α → Bool) (l : List α) (a : α)
    (rest : List α) (hd : l.dropWhile p = a :: rest) : p a = false := by
  induction l with
  | nil => simp [List.dropWhile] at hd
  | cons x xs ih =>
    rw [List.dropWhile_cons] at hd
    by_cases hx : p x
    · rw [if_pos hx] at hd; exact ih hd
    · rw [if_neg hx] at hd
      cases hd
      simpa using hx

theorem cutLastWord_length_le (l : List Char) :
    (cutLastWord l).length ≤ l.length := by
  unfold cutLastWord
  cases hd : l.reverse.dropWhile (fun c => !(c == ' ')) with
  | nil => exact Nat.le_refl _
  | cons a rest =>
    have h1 : (a :: rest).length ≤ l.reverse.length := by
      rw [← hd]; exact (List.dropWhile_sublist _).length_le
    rw [List.length_reverse] at h1
    rw [List.length_reverse]
    simp only [List.length_cons] at h1
    omega

theorem cutLastWord_space_decomp (l : List Char) (h : ' ' ∈ l) :
    ∃ w, l = cutLastWord l ++ ' ' :: w ∧ ' ' ∉ w := by
  cases hd : l.reverse.dropWhile (fun c => !(c == ' ')) with
  | nil =>
    exfalso
    have hrev : ' ' ∈ l.reverse := List.mem_reverse.mpr h
    have heq : l.reverse = l.reverse.takeWhile (fun c => !(c == ' ')) := by
      conv_lhs => rw [← List.takeWhile_append_dropWhile
        (p := fun c => !(c == ' ')) (l := l.reverse)]
      rw [hd, List.append_nil]
    rw [heq] at hrev
    have := List.mem_takeWhile_imp hrev
    simp at this
  | cons a rest =>
    have ha : a = ' ' := by
      have := dropWhile_head_not (fun c => !(c == ' ')) l.reverse a rest hd
      simpa using this
    subst ha
    have hsplit : l.reverse
        = l.reverse.takeWhile (fun c => !(c == ' ')) ++ ' ' :: rest := by
      conv_lhs => rw [← List.takeWhile_append_dropWhile
        (p := fun c => !(c == ' ')) (l := l.reverse)]
      rw [hd]
    have hcut : cutLastWord l = rest.reverse := by unfold cutLastWord; rw [hd]
    have hl : l = (l.reverse.takeWhile (fun c => !(c == ' ')) ++ ' ' :: rest).reverse := by
      rw [← hsplit, List.reverse_reverse]
    refine ⟨(l.reverse.takeWhile (fun c => !(c == ' '))).reverse, ?_, ?_⟩
    · rw [hcut]
      conv_lhs => rw [hl]
      simp
    · intro hw
      rw [List.mem_reverse] at hw
      have := List.mem_takeWhile_imp hw
      simp at this

/-- Claim C7 (amended): for every generated text and every URL of at most
279 characters, `_clean_tweet_text` returns at most 280 characters and
the result contains the URL; and whenever the truncated prefix contains a
space, the truncation (`rsplit(' ', 1)[0]`) cuts exactly at the prefix's
last space, so the kept text ends on a word boundary of the prefix. (A
space-free prefix is kept whole, cutting mid-word, and a URL longer than
279 characters can push the result past 280; see the counterexample.) -/
theorem C7_clean_tweet_text_bounds (tweet url : List Char)
    (h : url.length ≤ 279) :
    (clean_tweet_text tweet url).length ≤ 280
    ∧ url <:+: clean_tweet_text tweet url
    ∧ (' ' ∈ pySliceTo (stripQuotes tweet) (280 - (url.length : Int) - 1) →
        ∃ w, pySliceTo (stripQuotes tweet) (280 - (url.length : Int) - 1)
            = cutLastWord (pySliceTo (stripQuotes tweet)
                (280 - (url.length : Int) - 1)) ++ ' ' :: w
          ∧ ' ' ∉ w) := by
  have hmtl0 : (0 : Int) ≤ 280 - (url.length : Int) - 1 := by omega
  have hslice : ∀ x : List Char,
      pySliceTo x (280 - (url.length : Int) - 1)
        = x.take (280 - (url.length : Int) - 1).toNat := by
    intro x; unfold pySliceTo; rw [if_pos hmtl0]
  have htoNat : (280 - (url.length : Int) - 1).toNat = 279 - url.length := by
    omega
  have hbound : ∀ x : List Char,
      (cutLastWord (pySliceTo x (280 - (url.length : Int) - 1))
        ++ ' ' :: url).length ≤ 280 := by
    intro x
    have h1 := cutLastWord_length_le (pySliceTo x (280 - (url.length : Int) - 1))
    have h2 : (pySliceTo x (280 - (url.length : Int) - 1)).length
        ≤ (280 - (url.length : Int) - 1).toNat := by
      rw [hslice]; exact List.length_take_le _ _
    rw [List.length_append, List.length_cons]
    omega
  have hinfix : ∀ x : List Char, url <:+: x ++ ' ' :: url :=
    fun x => ⟨x ++ [' '], [], by simp⟩
  refine ⟨?_, ?_, fun hsp => cutLastWord_space_decomp _ hsp⟩
  · simp only [clean_tweet_text]
    split_ifs with h1 h2 h3 h4 h5
    · exact hbound _
    · omega
    · exact hbound _
    · rw [List.length_append, List.length_cons]; omega
    · exact hbound _
    · exact hbound _
  · simp only [clean_tweet_text]
    split_ifs with h1 h2 h3 h4 h5
    · exact hinfix _
    · exact h1
    · exact hinfix _
    · exact hinfix _
    · exact hinfix _
    · exact hinfix _

/-- Claim C7 witness: the amended bound evaluated at the spec's instance,
a 300-character text and a 25-character URL. -/
theorem C7_clean_tweet_text_bounds_witness :
    (List.replicate 25 'x').length ≤ 279
    ∧ ((clean_tweet_text (List.replicate 300 'a') (List.replicate 25 'x')).length ≤ 280
      ∧ List.replicate 25 'x' <:+:
          clean_tweet_text (List.replicate 300 'a') (List.replicate 25 'x')
      ∧ (' ' ∈ pySliceTo (stripQuotes (List.replicate 300 'a'))
            (280 - ((List.replicate 25 'x').length : Int) - 1) →
          ∃ w, pySliceTo (stripQuotes (List.replicate 300 'a'))
              (280 - ((List.replicate 25 'x').length : Int) - 1)
              = cutLastWord (pySliceTo (stripQuotes (List.replicate 300 'a'))
                  (280 - ((List.replicate 25 'x').length : Int) - 1)) ++ ' ' :: w
            ∧ ' ' ∉ w)) :=
  ⟨by decide,
    C7_clean_tweet_text_bounds (List.replicate 300 'a') (List.replicate 25 'x')
      (by decide)⟩

set_option maxRecDepth 40000 in
/-- Claim C7, counterexample. For the claim's own instance -- a
300-character space-free text and a 25-character URL -- the result keeps
the first 254 characters of the text unchanged and appends the URL, so
the text immediately before the URL is a truncated partial word: no
prefix of the result followed by `' ' :: url` is either the whole
original text or ends at a space of the original text. And for a URL of
281 characters the result exceeds 280 characters, so the unrestricted
"at most 280" reading fails too. -/
theorem C7_truncation_counterexample :
    clean_tweet_text (List.replicate 300 'a') (List.replicate 25 'x')
      = List.replicate 254 'a' ++ ' ' :: List.replicate 25 'x'
    ∧ ¬(∃ pre : List Char,
          clean_tweet_text (List.replicate 300 'a') (List.replicate 25 'x')
            = pre ++ ' ' :: List.replicate 25 'x'
          ∧ (pre = List.replicate 300 'a'
             ∨ (List.replicate 300 'a').take (pre.length + 1) = pre ++ [' ']))
    ∧ 280 < (clean_tweet_text ['h', 'i'] (List.replicate 281 'x')).length := by
  have hres : clean_tweet_text (List.replicate 300 'a') (List.replicate 25 'x')
      = List.replicate 254 'a' ++ ' ' :: List.replicate 25 'x' := by decide
  refine ⟨hres, ?_, by decide⟩
  rintro ⟨pre, hpre, hcase⟩
  rw [hres] at hpre
  have hlen : pre.length = 254 := by
    have := congrArg List.length hpre
    simp at this
    omega
  have hpre254 : pre = List.replicate 254 'a' := by
    have h1 : (List.replicate 254 'a' ++ ' ' :: List.replicate 25 'x').take 254
        = List.replicate 254 'a' := by simp
    have h2 : (pre ++ ' ' :: List.replicate 25 'x').take 254 = pre := by
      have := List.take_left pre (' ' :: List.replicate 25 'x')
      rwa [hlen] at this
    rw [← h2, ← hpre, h1]
  subst hpre254
  rcases hcase with hwhole | hbnd
  · have := congrArg List.length hwhole
    simp at this
  · rw [List.length_replicate] at hbnd
    revert hbnd
    decide

end TweetBot
